import Mathlib

/-
Verification of the HMAC operation state machine in
src/hmac_operation.cpp (keymaster).

The file shallowly embeds the C++ code:
  * the keymaster enums (purpose, digest selector, error code) are closed
    inductive types, as in keymaster_defs.h;
  * OpenSSL's incremental HMAC engine (HMAC_CTX, HMAC_CTX_init,
    HMAC_Init_ex, HMAC_Update, HMAC_Final, EVP_MD_size) is modelled by an
    explicit context record plus an environment `OpenSSLEnv` carrying the
    abstract HMAC function (one full-length digest per algorithm, key and
    accumulated data), the points at which the engine may fail, and the
    uninitialized bytes of the stack buffer `uint8_t digest[EVP_MAX_MD_SIZE]`
    beyond the digest length;
  * `memcmp` is the standard early-exit byte comparison, instrumented with
    the number of byte comparisons it performs (its timing observable);
  * machine integers are Nat, except where the source casts: the
    constructor's `(int)tag_length_ > EVP_MD_size(md)` compares after a
    size_t to int conversion, modelled as reduction mod 2^32 followed by
    two's-complement reinterpretation (`toCInt`).
-/

set_option autoImplicit false

namespace Keymaster

/-- Purposes of a keymaster operation (keymaster_defs.h `keymaster_purpose_t`). -/
inductive keymaster_purpose_t where
  | KM_PURPOSE_ENCRYPT
  | KM_PURPOSE_DECRYPT
  | KM_PURPOSE_SIGN
  | KM_PURPOSE_VERIFY
  deriving DecidableEq, Repr

/-- Digest selectors (keymaster_defs.h `keymaster_digest_t`). -/
inductive keymaster_digest_t where
  | KM_DIGEST_NONE
  | KM_DIGEST_MD5
  | KM_DIGEST_SHA1
  | KM_DIGEST_SHA_2_224
  | KM_DIGEST_SHA_2_256
  | KM_DIGEST_SHA_2_384
  | KM_DIGEST_SHA_2_512
  deriving DecidableEq, Repr

/-- The error codes this component produces (keymaster_defs.h `keymaster_error_t`). -/
inductive keymaster_error_t where
  | KM_ERROR_OK
  | KM_ERROR_UNSUPPORTED_DIGEST
  | KM_ERROR_UNSUPPORTED_MAC_LENGTH
  | KM_ERROR_UNKNOWN_ERROR
  | KM_ERROR_INVALID_INPUT_LENGTH
  | KM_ERROR_VERIFICATION_FAILED
  | KM_ERROR_UNSUPPORTED_PURPOSE
  deriving DecidableEq, Repr

/-- The concrete hash functions the constructor's switch can select. -/
inductive EvpMd where
  | sha224
  | sha256
  | sha384
  | sha512
  deriving DecidableEq, Repr

/-- Native digest output size in bytes (OpenSSL `EVP_MD_size`). -/
def EVP_MD_size : EvpMd → Nat
  | .sha224 => 28
  | .sha256 => 32
  | .sha384 => 48
  | .sha512 => 64

/-- The constructor's switch on the digest selector (lines 32-48 of
hmac_operation.cpp): the four SHA-2 selectors map to a concrete hash,
everything else falls to the default branch. -/
def evpMdOf : keymaster_digest_t → Option EvpMd
  | .KM_DIGEST_SHA_2_224 => some .sha224
  | .KM_DIGEST_SHA_2_256 => some .sha256
  | .KM_DIGEST_SHA_2_384 => some .sha384
  | .KM_DIGEST_SHA_2_512 => some .sha512
  | _ => none

/-- C cast of a size_t value to int (line 50, `(int)tag_length_`): reduce
mod 2^32 and reinterpret in two's complement. -/
def toCInt (n : Nat) : Int :=
  let r : Nat := n % 2 ^ 32
  if r < 2 ^ 31 then (r : Int) else (r : Int) - 2 ^ 32

/-- State of OpenSSL's incremental HMAC context: which hash and key it was
initialized with (none before `HMAC_Init_ex`), and the data fed so far. -/
structure HMAC_CTX where
  md : Option EvpMd
  key : List Nat
  data : List Nat
  deriving DecidableEq, Repr

/-- `HMAC_CTX_init`: a zeroed, not-yet-keyed context. -/
def HMAC_CTX_init : HMAC_CTX :=
  { md := none, key := [], data := [] }

/-- `HMAC_Init_ex(ctx, key, key_len, md, NULL)`: bind key and hash, reset data. -/
def HMAC_Init_ex (_ctx : HMAC_CTX) (key : List Nat) (md : EvpMd) : HMAC_CTX :=
  { md := some md, key := key, data := [] }

/-- Environment abstracting OpenSSL's HMAC engine: the HMAC function itself
(per algorithm, key and message, returning the full native-length digest),
an arbitrary value for finalizing a never-initialized context, the points
at which `HMAC_Update` and `HMAC_Final` may report failure, and the
uninitialized stack bytes that sit after the digest in the 64-byte buffer
`Finish` allocates. -/
structure OpenSSLEnv where
  hmac : EvpMd → List Nat → List Nat → List Nat
  hmac_length : ∀ md key data, (hmac md key data).length = EVP_MD_size md
  hmacUninit : List Nat → List Nat
  updateOk : HMAC_CTX → List Nat → Bool
  finalOk : HMAC_CTX → Bool
  stackJunk : List Nat

/-- `HMAC_Update(ctx, data, len)`: append the bytes to the running
computation; `none` models the engine returning 0 (failure). -/
def HMAC_Update (E : OpenSSLEnv) (ctx : HMAC_CTX) (input : List Nat) : Option HMAC_CTX :=
  if E.updateOk ctx input then some { ctx with data := ctx.data ++ input } else none

/-- The digest `HMAC_Final` writes: the HMAC of everything accumulated, or
an unspecified value if the context was never keyed. -/
def HMAC_digest (E : OpenSSLEnv) (ctx : HMAC_CTX) : List Nat :=
  match ctx.md with
  | some md => E.hmac md ctx.key ctx.data
  | none => E.hmacUninit ctx.data

/-- `HMAC_Final(ctx, digest, digest_len)`: produce the digest bytes, or
`none` when the engine returns 0 (failure). -/
def HMAC_Final (E : OpenSSLEnv) (ctx : HMAC_CTX) : Option (List Nat) :=
  if E.finalOk ctx then some (HMAC_digest E ctx) else none

/-- Reference semantics of `memcmp(a, b, n)` (first component) together
with the number of byte comparisons performed before returning (second
component) - the early-exit behaviour that makes its running time depend
on the length of the matching prefix. -/
def memcmpRun : List Nat → List Nat → Nat → Int × Nat
  | _, _, 0 => (0, 0)
  | x :: xs, y :: ys, n + 1 =>
    if x = y then ((memcmpRun xs ys n).1, (memcmpRun xs ys n).2 + 1)
    else ((x : Int) - (y : Int), 1)
  | _, _, _ + 1 => (0, 0)

/-- Result of `memcmp(a, b, n)`. -/
def memcmp (a b : List Nat) (n : Nat) : Int :=
  (memcmpRun a b n).1

/-- Number of byte comparisons `memcmp(a, b, n)` performs (timing observable). -/
def memcmpSteps (a b : List Nat) (n : Nat) : Nat :=
  (memcmpRun a b n).2

/-- State of an `HmacOperation`: the purpose held by the `Operation` base,
the latched construction-time error `error_`, the requested `tag_length_`,
and the owned HMAC context `ctx_`. -/
structure HmacOperation where
  purpose : keymaster_purpose_t
  error_ : keymaster_error_t
  tag_length_ : Nat
  ctx_ : HMAC_CTX
  deriving DecidableEq, Repr

/-- `HmacOperation::HmacOperation` (lines 24-56): init the context first,
switch on the digest selector (latching KM_ERROR_UNSUPPORTED_DIGEST on the
default branch), compare `(int)tag_length_` against `EVP_MD_size(md)`
(latching KM_ERROR_UNSUPPORTED_MAC_LENGTH when greater), else bind the key. -/
def hmacOperationNew (purpose : keymaster_purpose_t) (key_data : List Nat)
    (digest : keymaster_digest_t) (tag_length : Nat) : HmacOperation :=
  let ctx0 := HMAC_CTX_init
  match evpMdOf digest with
  | none =>
    { purpose := purpose, error_ := .KM_ERROR_UNSUPPORTED_DIGEST,
      tag_length_ := tag_length, ctx_ := ctx0 }
  | some md =>
    if toCInt tag_length > (EVP_MD_size md : Int) then
      { purpose := purpose, error_ := .KM_ERROR_UNSUPPORTED_MAC_LENGTH,
        tag_length_ := tag_length, ctx_ := ctx0 }
    else
      { purpose := purpose, error_ := .KM_ERROR_OK,
        tag_length_ := tag_length, ctx_ := HMAC_Init_ex ctx0 key_data md }

/-- `HmacOperation::Begin` (lines 62-64): return the latched error. -/
def HmacOperation.Begin (op : HmacOperation) : keymaster_error_t :=
  op.error_

/-- `HmacOperation::Update` (lines 66-72). `input` is the buffer's unread
bytes; `input_consumed` is the value stored at the out-parameter before the
call, returned unchanged when `HMAC_Update` fails (the code returns before
the store) and overwritten with the full input length on success. -/
def HmacOperation.Update (E : OpenSSLEnv) (op : HmacOperation) (input : List Nat)
    (input_consumed : Nat) : keymaster_error_t × HmacOperation × Nat :=
  match HMAC_Update E op.ctx_ input with
  | none => (.KM_ERROR_UNKNOWN_ERROR, op, input_consumed)
  | some ctx2 => (.KM_ERROR_OK, { op with ctx_ := ctx2 }, input.length)

/-- `HmacOperation::Abort` (lines 74-76): always KM_ERROR_OK. -/
def HmacOperation.Abort (_op : HmacOperation) : keymaster_error_t :=
  .KM_ERROR_OK

/-- `HmacOperation::Finish` (lines 78-98). `signature` is the supplied
tag's bytes, `output` the sink's prior contents; returns the error code and
the sink afterwards. The stack buffer holds the digest followed by
uninitialized bytes, and both the SIGN write and the VERIFY memcmp read
`tag_length_` bytes from it. -/
def HmacOperation.Finish (E : OpenSSLEnv) (op : HmacOperation) (signature : List Nat)
    (output : List Nat) : keymaster_error_t × List Nat :=
  match HMAC_Final E op.ctx_ with
  | none => (.KM_ERROR_UNKNOWN_ERROR, output)
  | some dg =>
    let buf := dg ++ E.stackJunk
    match op.purpose with
    | .KM_PURPOSE_SIGN => (.KM_ERROR_OK, output ++ buf.take op.tag_length_)
    | .KM_PURPOSE_VERIFY =>
      if signature.length ≠ op.tag_length_ then (.KM_ERROR_INVALID_INPUT_LENGTH, output)
      else if memcmp signature buf op.tag_length_ ≠ 0 then
        (.KM_ERROR_VERIFICATION_FAILED, output)
      else (.KM_ERROR_OK, output)
    | _ => (.KM_ERROR_UNSUPPORTED_PURPOSE, output)

/-- Drive a sequence of Update calls, as the dispatcher would; `none` if
any of them fails. -/
def runUpdates (E : OpenSSLEnv) : HmacOperation → List (List Nat) → Option HmacOperation
  | op, [] => some op
  | op, c :: cs =>
    match HmacOperation.Update E op c 0 with
    | (.KM_ERROR_OK, op2, _) => runUpdates E op2 cs
    | _ => none

/-- The timing observable of the VERIFY branch of Finish: how many byte
comparisons its `memcmp` of the supplied tag against the digest buffer
performs. -/
def FinishVerifySteps (E : OpenSSLEnv) (op : HmacOperation) (signature : List Nat) : Nat :=
  memcmpSteps signature (HMAC_digest E op.ctx_ ++ E.stackJunk) op.tag_length_

/-- Pad or truncate a list to exactly n bytes (builder for concrete environments). -/
def padTo (n : Nat) (l : List Nat) : List Nat :=
  (l ++ List.replicate n 0).take n

/-- A concrete engine whose HMAC of anything is `seed` padded to the native
size, and which never fails - used to instantiate theorems on concrete inputs. -/
def constEnv (seed : List Nat) : OpenSSLEnv where
  hmac := fun md _ _ => padTo (EVP_MD_size md) seed
  hmac_length := by
    intro _ _ _
    simp only [padTo, List.length_take, List.length_append, List.length_replicate]
    omega
  hmacUninit := fun _ => []
  updateOk := fun _ _ => true
  finalOk := fun _ => true
  stackJunk := []

/-- A concrete always-succeeding engine whose digests are all-zero. -/
def okEnv : OpenSSLEnv :=
  constEnv []

/-- A concrete engine whose HMAC_Update and HMAC_Final always fail. -/
def failEnv : OpenSSLEnv where
  hmac := fun md _ _ => padTo (EVP_MD_size md) []
  hmac_length := by
    intro _ _ _
    simp only [padTo, List.length_take, List.length_append, List.length_replicate]
    omega
  hmacUninit := fun _ => []
  updateOk := fun _ _ => false
  finalOk := fun _ => false
  stackJunk := []

/-- Every supported hash's native size is at most 64 bytes (EVP_MAX_MD_SIZE). -/
theorem EVP_MD_size_le (md : EvpMd) : EVP_MD_size md ≤ 64 := by
  cases md <;> simp [EVP_MD_size]

/-- The size_t to int cast is the identity below 2^31. -/
theorem toCInt_of_lt (n : Nat) (h : n < 2 ^ 31) : toCInt n = (n : Int) := by
  have h32 : n % 2 ^ 32 = n := Nat.mod_eq_of_lt (lt_trans h (by norm_num))
  simp only [toCInt, h32]
  rw [if_pos h]

/-- Successful construction: a supported digest and an in-range tag length
latch no error and bind the key into a fresh context. -/
theorem hmacOperationNew_ok (p : keymaster_purpose_t) (key : List Nat)
    (digest : keymaster_digest_t) (md : EvpMd) (L : Nat)
    (hmd : evpMdOf digest = some md) (hL : L ≤ EVP_MD_size md) :
    hmacOperationNew p key digest L =
      { purpose := p, error_ := .KM_ERROR_OK, tag_length_ := L,
        ctx_ := { md := some md, key := key, data := [] } } := by
  have h31 : L < 2 ^ 31 := lt_of_le_of_lt (le_trans hL (EVP_MD_size_le md)) (by norm_num)
  have hnot : ¬ ((EVP_MD_size md : Int) < toCInt L) := by
    rw [toCInt_of_lt L h31]
    exact_mod_cast not_lt.mpr hL
  unfold hmacOperationNew
  rw [hmd]
  simp [hnot, HMAC_Init_ex, HMAC_CTX_init]

/-- A run of successful Updates leaves purpose, latched error, tag length,
hash and key untouched and appends the concatenation of the chunks to the
accumulated data. -/
theorem runUpdates_some (E : OpenSSLEnv) (op op' : HmacOperation)
    (chunks : List (List Nat)) (h : runUpdates E op chunks = some op') :
    op' = { purpose := op.purpose, error_ := op.error_, tag_length_ := op.tag_length_,
            ctx_ := { md := op.ctx_.md, key := op.ctx_.key,
                      data := op.ctx_.data ++ chunks.flatten } } := by
  induction chunks generalizing op with
  | nil =>
    simp only [runUpdates, Option.some.injEq] at h
    simp [← h]
  | cons c cs ih =>
    simp only [runUpdates, HmacOperation.Update, HMAC_Update] at h
    by_cases hc : E.updateOk op.ctx_ c
    · rw [if_pos hc] at h
      have h2 := ih { op with ctx_ := { op.ctx_ with data := op.ctx_.data ++ c } } h
      rw [h2]
      simp [List.append_assoc]
    · rw [if_neg hc] at h
      simp at h

/-- memcmp over n bytes returns 0 exactly when the first n bytes agree
(provided both buffers hold at least n bytes). -/
theorem memcmp_eq_zero_iff (a b : List Nat) (n : Nat)
    (ha : n ≤ a.length) (hb : n ≤ b.length) :
    memcmp a b n = 0 ↔ a.take n = b.take n := by
  induction n generalizing a b with
  | zero => simp [memcmp, memcmpRun]
  | succ n ih =>
    match a, b with
    | [], _ => simp at ha
    | _ :: _, [] => simp at hb
    | x :: xs, y :: ys =>
      simp only [List.length_cons, Nat.succ_le_succ_iff] at ha hb
      by_cases hxy : x = y
      · subst hxy
        simp only [memcmp, memcmpRun, if_pos rfl, List.take_succ_cons, List.cons.injEq,
          true_and]
        exact ih xs ys ha hb
      · have hne : ((x : Int) - (y : Int)) ≠ 0 :=
          sub_ne_zero.mpr (by exact_mod_cast hxy)
        simp [memcmp, memcmpRun, hxy, hne, List.take_succ_cons]

/-- Finish under SIGN (engine succeeding): append the first tag_length_
bytes of the digest buffer to the sink and report KM_ERROR_OK. -/
theorem Finish_sign_eq (E : OpenSSLEnv) (op : HmacOperation) (sig out0 : List Nat)
    (hp : op.purpose = .KM_PURPOSE_SIGN) (hfin : E.finalOk op.ctx_ = true) :
    HmacOperation.Finish E op sig out0 =
      (.KM_ERROR_OK, out0 ++ (HMAC_digest E op.ctx_ ++ E.stackJunk).take op.tag_length_) := by
  simp [HmacOperation.Finish, HMAC_Final, hfin, hp]

/-- Finish under VERIFY (engine succeeding), split by the three outcomes. -/
theorem Finish_verify_eq (E : OpenSSLEnv) (op : HmacOperation) (sig out0 : List Nat)
    (hp : op.purpose = .KM_PURPOSE_VERIFY) (hfin : E.finalOk op.ctx_ = true)
    (hdg : op.tag_length_ ≤ (HMAC_digest E op.ctx_).length) :
    HmacOperation.Finish E op sig out0 =
      (if sig.length ≠ op.tag_length_ then (.KM_ERROR_INVALID_INPUT_LENGTH, out0)
       else if sig ≠ (HMAC_digest E op.ctx_).take op.tag_length_ then
         (.KM_ERROR_VERIFICATION_FAILED, out0)
       else (.KM_ERROR_OK, out0)) := by
  have hFin : HmacOperation.Finish E op sig out0 =
      (if sig.length ≠ op.tag_length_ then (.KM_ERROR_INVALID_INPUT_LENGTH, out0)
       else if memcmp sig (HMAC_digest E op.ctx_ ++ E.stackJunk) op.tag_length_ ≠ 0 then
         (.KM_ERROR_VERIFICATION_FAILED, out0)
       else (.KM_ERROR_OK, out0)) := by
    simp [HmacOperation.Finish, HMAC_Final, hfin, hp]
  rw [hFin]
  by_cases hlen : sig.length = op.tag_length_
  · have hbuf : op.tag_length_ ≤ (HMAC_digest E op.ctx_ ++ E.stackJunk).length := by
      simp only [List.length_append]
      omega
    have htk : (HMAC_digest E op.ctx_ ++ E.stackJunk).take op.tag_length_ =
        (HMAC_digest E op.ctx_).take op.tag_length_ :=
      List.take_append_of_le_length hdg
    have hstk : sig.take op.tag_length_ = sig := by
      rw [← hlen]
      exact List.take_length sig
    have hcmp := memcmp_eq_zero_iff sig (HMAC_digest E op.ctx_ ++ E.stackJunk)
      op.tag_length_ (le_of_eq hlen.symm) hbuf
    rw [htk, hstk] at hcmp
    simp only [ne_eq, hcmp]
  · have hlen' : sig.length ≠ op.tag_length_ := hlen
    rw [if_pos hlen', if_pos hlen']

/-- Finish under VERIFY accepts the first tag_length_ bytes of its own
digest. -/
theorem Finish_verify_ok (E : OpenSSLEnv) (op : HmacOperation) (out0 : List Nat)
    (hp : op.purpose = .KM_PURPOSE_VERIFY) (hfin : E.finalOk op.ctx_ = true)
    (hdg : op.tag_length_ ≤ (HMAC_digest E op.ctx_).length) :
    HmacOperation.Finish E op ((HMAC_digest E op.ctx_).take op.tag_length_) out0 =
      (.KM_ERROR_OK, out0) := by
  rw [Finish_verify_eq E op _ out0 hp hfin hdg]
  have hl : ((HMAC_digest E op.ctx_).take op.tag_length_).length = op.tag_length_ := by
    rw [List.length_take]
    omega
  rw [if_neg (not_not_intro hl), if_neg (not_not_intro rfl)]

/-- C1: for a supported digest D, a key, a tag length L at most the native
size of D, and a message fed in any chunking through successful Update
calls, Finish under SIGN ignores the supplied tag, appends exactly the
first L bytes of HMAC-D(key, message) (a list of exactly L bytes) to the
output sink, and returns KM_ERROR_OK. -/
theorem C1_sign_finish_truncated_hmac (E : OpenSSLEnv) (key msg sig out0 : List Nat)
    (digest : keymaster_digest_t) (md : EvpMd) (L : Nat)
    (chunks : List (List Nat)) (op' : HmacOperation)
    (hmd : evpMdOf digest = some md) (hL : L ≤ EVP_MD_size md)
    (hrun : runUpdates E (hmacOperationNew .KM_PURPOSE_SIGN key digest L) chunks = some op')
    (hjoin : chunks.flatten = msg)
    (hfin : E.finalOk op'.ctx_ = true) :
    HmacOperation.Finish E op' sig out0 =
      (.KM_ERROR_OK, out0 ++ (E.hmac md key msg).take L) ∧
    ((E.hmac md key msg).take L).length = L := by
  subst hjoin
  have hop := runUpdates_some E _ op' chunks hrun
  rw [hmacOperationNew_ok .KM_PURPOSE_SIGN key digest md L hmd hL] at hop
  simp only [List.nil_append] at hop
  subst hop
  have hlen : (E.hmac md key chunks.flatten).length = EVP_MD_size md :=
    E.hmac_length md key chunks.flatten
  have hLlen : L ≤ (E.hmac md key chunks.flatten).length := by omega
  constructor
  · rw [Finish_sign_eq E _ sig out0 rfl hfin]
    have hd : HMAC_digest E { md := some md, key := key, data := chunks.flatten } =
        E.hmac md key chunks.flatten := rfl
    show (keymaster_error_t.KM_ERROR_OK,
        out0 ++ (HMAC_digest E { md := some md, key := key, data := chunks.flatten } ++
          E.stackJunk).take L) = _
    rw [hd, List.take_append_of_le_length hLlen]
  · rw [List.length_take]
    omega

/-- Witness for C1 at concrete inputs: the always-succeeding all-zero
engine, key [1], message [5, 6, 7] split into chunks [5] and [6, 7],
digest SHA-256, tag length 4. -/
theorem C1_sign_finish_truncated_hmac_witness :
    HmacOperation.Finish okEnv
      { purpose := .KM_PURPOSE_SIGN, error_ := .KM_ERROR_OK, tag_length_ := 4,
        ctx_ := { md := some .sha256, key := [1], data := [5, 6, 7] } } [9] [] =
      (.KM_ERROR_OK, [] ++ (okEnv.hmac .sha256 [1] [5, 6, 7]).take 4) ∧
    ((okEnv.hmac .sha256 [1] [5, 6, 7]).take 4).length = 4 :=
  C1_sign_finish_truncated_hmac okEnv [1] [5, 6, 7] [9] [] .KM_DIGEST_SHA_2_256 .sha256 4
    [[5], [6, 7]]
    { purpose := .KM_PURPOSE_SIGN, error_ := .KM_ERROR_OK, tag_length_ := 4,
      ctx_ := { md := some .sha256, key := [1], data := [5, 6, 7] } }
    rfl (by decide) (by decide) rfl rfl

/-- C2: under VERIFY (with the engine finalizing successfully and the tag
length within the digest, as successful construction guarantees): a
supplied tag of the wrong length yields KM_ERROR_INVALID_INPUT_LENGTH
regardless of content; a right-length tag differing from the first
tag_length_ bytes of the computed digest yields
KM_ERROR_VERIFICATION_FAILED; a tag equal to those bytes yields
KM_ERROR_OK. -/
theorem C2_verify_finish_trichotomy (E : OpenSSLEnv) (op : HmacOperation)
    (sig out0 : List Nat)
    (hp : op.purpose = .KM_PURPOSE_VERIFY)
    (hfin : E.finalOk op.ctx_ = true)
    (hdg : op.tag_length_ ≤ (HMAC_digest E op.ctx_).length) :
    (sig.length ≠ op.tag_length_ →
      HmacOperation.Finish E op sig out0 = (.KM_ERROR_INVALID_INPUT_LENGTH, out0)) ∧
    (sig.length = op.tag_length_ →
      sig ≠ (HMAC_digest E op.ctx_).take op.tag_length_ →
      HmacOperation.Finish E op sig out0 = (.KM_ERROR_VERIFICATION_FAILED, out0)) ∧
    (sig = (HMAC_digest E op.ctx_).take op.tag_length_ →
      HmacOperation.Finish E op sig out0 = (.KM_ERROR_OK, out0)) := by
  rw [Finish_verify_eq E op sig out0 hp hfin hdg]
  refine ⟨fun h1 => ?_, fun h1 h2 => ?_, fun h1 => ?_⟩
  · rw [if_pos h1]
  · rw [if_neg (not_not_intro h1), if_pos h2]
  · have hl : sig.length = op.tag_length_ := by
      rw [h1, List.length_take]
      omega
    rw [if_neg (not_not_intro hl), if_neg (not_not_intro h1)]

/-- Witness for C2 at concrete inputs, exercising all three branches: an
operation with tag length 2 over the all-zero engine rejects a 1-byte tag
with KM_ERROR_INVALID_INPUT_LENGTH, rejects the wrong 2-byte tag [9, 9]
with KM_ERROR_VERIFICATION_FAILED, and accepts the right tag [0, 0]. -/
theorem C2_verify_finish_trichotomy_witness :
    HmacOperation.Finish okEnv
      { purpose := .KM_PURPOSE_VERIFY, error_ := .KM_ERROR_OK, tag_length_ := 2,
        ctx_ := { md := some .sha256, key := [], data := [] } } [9] [] =
      (.KM_ERROR_INVALID_INPUT_LENGTH, []) ∧
    HmacOperation.Finish okEnv
      { purpose := .KM_PURPOSE_VERIFY, error_ := .KM_ERROR_OK, tag_length_ := 2,
        ctx_ := { md := some .sha256, key := [], data := [] } } [9, 9] [] =
      (.KM_ERROR_VERIFICATION_FAILED, []) ∧
    HmacOperation.Finish okEnv
      { purpose := .KM_PURPOSE_VERIFY, error_ := .KM_ERROR_OK, tag_length_ := 2,
        ctx_ := { md := some .sha256, key := [], data := [] } } [0, 0] [] =
      (.KM_ERROR_OK, []) :=
  ⟨(C2_verify_finish_trichotomy okEnv _ [9] [] rfl rfl (by decide)).1 (by decide),
   (C2_verify_finish_trichotomy okEnv _ [9, 9] [] rfl rfl (by decide)).2.1 (by decide)
     (by decide),
   (C2_verify_finish_trichotomy okEnv _ [0, 0] [] rfl rfl (by decide)).2.2 (by decide)⟩

/-- C3 is refuted by the code: line 92 compares the supplied tag with
plain memcmp, not a dedicated constant-time primitive, and memcmp's early
exit makes the number of byte comparisons depend on the secret digest.
With identical public inputs (supplied tag [1, 0], tag length 2, same key
and data), an operation whose secret digest begins 0, 0, ... is compared
in 1 step while one whose digest begins 1, 0, ... takes 2 steps. -/
theorem C3_verify_memcmp_timing_depends_on_secret :
    FinishVerifySteps (constEnv [0])
        (hmacOperationNew .KM_PURPOSE_VERIFY [] .KM_DIGEST_SHA_2_256 2) [1, 0] = 1 ∧
    FinishVerifySteps (constEnv [1])
        (hmacOperationNew .KM_PURPOSE_VERIFY [] .KM_DIGEST_SHA_2_256 2) [1, 0] = 2 := by
  decide

/-- C4 is refuted by the code: line 50 casts the size_t tag_length_ to int
before comparing it with EVP_MD_size(md), so the requested tag length 2^31
- which is strictly greater than SHA-256's native 32-byte size - wraps to
a negative int, passes the check, latches no error, and Begin returns
KM_ERROR_OK instead of KM_ERROR_UNSUPPORTED_MAC_LENGTH. -/
theorem C4_mac_length_check_defeated_by_int_cast :
    EVP_MD_size .sha256 < 2 ^ 31 ∧
    (hmacOperationNew .KM_PURPOSE_SIGN [0] .KM_DIGEST_SHA_2_256 (2 ^ 31)).error_ =
      .KM_ERROR_OK ∧
    (hmacOperationNew .KM_PURPOSE_SIGN [0] .KM_DIGEST_SHA_2_256 (2 ^ 31)).Begin =
      .KM_ERROR_OK := by
  decide

/-- C5: round trip - for any key, supported digest, tag length within the
native size, and message (each fed in any chunking through successful
Updates), the output a SIGN operation's Finish writes, supplied as the tag
to a VERIFY operation with the same key, digest and tag length over the
same message, makes that Finish return KM_ERROR_OK. -/
theorem C5_sign_verify_round_trip (E : OpenSSLEnv) (key msg sig0 : List Nat)
    (digest : keymaster_digest_t) (md : EvpMd) (L : Nat)
    (chunksS chunksV : List (List Nat)) (opS opV : HmacOperation)
    (hmd : evpMdOf digest = some md) (hL : L ≤ EVP_MD_size md)
    (hrunS : runUpdates E (hmacOperationNew .KM_PURPOSE_SIGN key digest L) chunksS = some opS)
    (hjS : chunksS.flatten = msg)
    (hfinS : E.finalOk opS.ctx_ = true)
    (hrunV : runUpdates E (hmacOperationNew .KM_PURPOSE_VERIFY key digest L) chunksV = some opV)
    (hjV : chunksV.flatten = msg)
    (hfinV : E.finalOk opV.ctx_ = true) :
    HmacOperation.Finish E opV (HmacOperation.Finish E opS sig0 []).2 [] =
      (.KM_ERROR_OK, []) := by
  have hopS := runUpdates_some E _ opS chunksS hrunS
  rw [hmacOperationNew_ok .KM_PURPOSE_SIGN key digest md L hmd hL] at hopS
  simp only [List.nil_append] at hopS
  have hopV := runUpdates_some E _ opV chunksV hrunV
  rw [hmacOperationNew_ok .KM_PURPOSE_VERIFY key digest md L hmd hL] at hopV
  simp only [List.nil_append] at hopV
  subst hopS
  subst hopV
  rw [hjS] at hfinS ⊢
  rw [hjV] at hfinV ⊢
  have hlen : (E.hmac md key msg).length = EVP_MD_size md := E.hmac_length md key msg
  have hLlen : L ≤ (E.hmac md key msg).length := by omega
  have hdV : HMAC_digest E { md := some md, key := key, data := msg } =
      E.hmac md key msg := rfl
  have hsig : (HmacOperation.Finish E
      { purpose := .KM_PURPOSE_SIGN, error_ := .KM_ERROR_OK, tag_length_ := L,
        ctx_ := { md := some md, key := key, data := msg } } sig0 []).2 =
      (E.hmac md key msg).take L := by
    rw [Finish_sign_eq E _ sig0 [] rfl hfinS]
    show ([] ++ (HMAC_digest E { md := some md, key := key, data := msg } ++
      E.stackJunk).take L) = _
    rw [hdV, List.nil_append, List.take_append_of_le_length hLlen]
  rw [hsig]
  exact Finish_verify_ok E
    { purpose := .KM_PURPOSE_VERIFY, error_ := .KM_ERROR_OK, tag_length_ := L,
      ctx_ := { md := some md, key := key, data := msg } }
    [] rfl hfinV (by show L ≤ (E.hmac md key msg).length; omega)

/-- Witness for C5 at concrete inputs: key [1], message [5, 6, 7] fed in
one chunk to SIGN and two chunks to VERIFY, digest SHA-256, tag length 4,
over the always-succeeding all-zero engine. -/
theorem C5_sign_verify_round_trip_witness :
    HmacOperation.Finish okEnv
      { purpose := .KM_PURPOSE_VERIFY, error_ := .KM_ERROR_OK, tag_length_ := 4,
        ctx_ := { md := some .sha256, key := [1], data := [5, 6, 7] } }
      (HmacOperation.Finish okEnv
        { purpose := .KM_PURPOSE_SIGN, error_ := .KM_ERROR_OK, tag_length_ := 4,
          ctx_ := { md := some .sha256, key := [1], data := [5, 6, 7] } } [] []).2 [] =
      (.KM_ERROR_OK, []) :=
  C5_sign_verify_round_trip okEnv [1] [5, 6, 7] [] .KM_DIGEST_SHA_2_256 .sha256 4
    [[5, 6, 7]] [[5], [6, 7]]
    { purpose := .KM_PURPOSE_SIGN, error_ := .KM_ERROR_OK, tag_length_ := 4,
      ctx_ := { md := some .sha256, key := [1], data := [5, 6, 7] } }
    { purpose := .KM_PURPOSE_VERIFY, error_ := .KM_ERROR_OK, tag_length_ := 4,
      ctx_ := { md := some .sha256, key := [1], data := [5, 6, 7] } }
    rfl (by decide) (by decide) rfl rfl (by decide) rfl rfl

/-- C6: Update either feeds the whole input into the running computation
and reports the full input length consumed with KM_ERROR_OK, or - when the
engine rejects the update - returns KM_ERROR_UNKNOWN_ERROR; partial
consumption never occurs. -/
theorem C6_update_consumes_all_or_unknown_error (E : OpenSSLEnv) (op : HmacOperation)
    (input : List Nat) (c0 : Nat) :
    (E.updateOk op.ctx_ input = true →
      HmacOperation.Update E op input c0 =
        (.KM_ERROR_OK,
         { op with ctx_ := { op.ctx_ with data := op.ctx_.data ++ input } },
         input.length)) ∧
    (E.updateOk op.ctx_ input = false →
      (HmacOperation.Update E op input c0).1 = .KM_ERROR_UNKNOWN_ERROR) := by
  constructor <;> intro h <;> simp [HmacOperation.Update, HMAC_Update, h]

/-- Witness for C6 at concrete inputs: a successful update appends [6, 7]
and reports 2 bytes consumed; a rejected update reports
KM_ERROR_UNKNOWN_ERROR. -/
theorem C6_update_consumes_all_or_unknown_error_witness :
    HmacOperation.Update okEnv
      { purpose := .KM_PURPOSE_SIGN, error_ := .KM_ERROR_OK, tag_length_ := 4,
        ctx_ := { md := some .sha256, key := [1], data := [5] } } [6, 7] 0 =
      (.KM_ERROR_OK,
       { purpose := .KM_PURPOSE_SIGN, error_ := .KM_ERROR_OK, tag_length_ := 4,
         ctx_ := { md := some .sha256, key := [1], data := [5, 6, 7] } }, 2) ∧
    (HmacOperation.Update failEnv
      { purpose := .KM_PURPOSE_SIGN, error_ := .KM_ERROR_OK, tag_length_ := 4,
        ctx_ := { md := some .sha256, key := [1], data := [5] } } [6, 7] 0).1 =
      .KM_ERROR_UNKNOWN_ERROR :=
  ⟨(C6_update_consumes_all_or_unknown_error okEnv _ [6, 7] 0).1 rfl,
   (C6_update_consumes_all_or_unknown_error failEnv _ [6, 7] 0).2 rfl⟩

/-- C7: for a digest selector outside {SHA-224, SHA-256, SHA-384,
SHA-512}, construction latches KM_ERROR_UNSUPPORTED_DIGEST, leaves the
context exactly as HMAC_CTX_init left it (no key bound, nothing else
mutated), and Begin returns that error. -/
theorem C7_unsupported_digest_latched (p : keymaster_purpose_t) (key : List Nat)
    (digest : keymaster_digest_t) (tag : Nat)
    (h : digest ≠ .KM_DIGEST_SHA_2_224 ∧ digest ≠ .KM_DIGEST_SHA_2_256 ∧
         digest ≠ .KM_DIGEST_SHA_2_384 ∧ digest ≠ .KM_DIGEST_SHA_2_512) :
    hmacOperationNew p key digest tag =
      { purpose := p, error_ := .KM_ERROR_UNSUPPORTED_DIGEST, tag_length_ := tag,
        ctx_ := HMAC_CTX_init } ∧
    (hmacOperationNew p key digest tag).Begin = .KM_ERROR_UNSUPPORTED_DIGEST := by
  have hmd : evpMdOf digest = none := by
    obtain ⟨h1, h2, h3, h4⟩ := h
    cases digest <;> simp_all [evpMdOf]
  have hop : hmacOperationNew p key digest tag =
      { purpose := p, error_ := .KM_ERROR_UNSUPPORTED_DIGEST, tag_length_ := tag,
        ctx_ := HMAC_CTX_init } := by
    unfold hmacOperationNew
    rw [hmd]
  exact ⟨hop, by rw [hop]; rfl⟩

/-- Witness for C7 at a concrete input: the MD5 selector. -/
theorem C7_unsupported_digest_latched_witness :
    hmacOperationNew .KM_PURPOSE_SIGN [1, 2] .KM_DIGEST_MD5 16 =
      { purpose := .KM_PURPOSE_SIGN, error_ := .KM_ERROR_UNSUPPORTED_DIGEST,
        tag_length_ := 16, ctx_ := HMAC_CTX_init } ∧
    (hmacOperationNew .KM_PURPOSE_SIGN [1, 2] .KM_DIGEST_MD5 16).Begin =
      .KM_ERROR_UNSUPPORTED_DIGEST :=
  C7_unsupported_digest_latched .KM_PURPOSE_SIGN [1, 2] .KM_DIGEST_MD5 16 (by decide)

/-- C8: requested tag length 0 latches no error for any supported digest
(Begin returns KM_ERROR_OK); on any operation whose tag length is 0 (and
whose engine finalizes successfully), Finish under SIGN appends nothing to
the output sink and returns KM_ERROR_OK, and Finish under VERIFY returns
KM_ERROR_OK for any 0-length supplied tag - zero-length tags always
verify, whatever the accumulated message. -/
theorem C8_zero_tag_length_always_verifies (E : OpenSSLEnv) (p : keymaster_purpose_t)
    (key sig out0 : List Nat) (digest : keymaster_digest_t) (md : EvpMd)
    (op : HmacOperation)
    (hmd : evpMdOf digest = some md)
    (htag : op.tag_length_ = 0)
    (hfin : E.finalOk op.ctx_ = true) :
    (hmacOperationNew p key digest 0).error_ = .KM_ERROR_OK ∧
    (hmacOperationNew p key digest 0).Begin = .KM_ERROR_OK ∧
    (op.purpose = .KM_PURPOSE_SIGN →
      HmacOperation.Finish E op sig out0 = (.KM_ERROR_OK, out0)) ∧
    (op.purpose = .KM_PURPOSE_VERIFY → sig.length = 0 →
      HmacOperation.Finish E op sig out0 = (.KM_ERROR_OK, out0)) := by
  have hok := hmacOperationNew_ok p key digest md 0 hmd (Nat.zero_le _)
  refine ⟨by rw [hok], by rw [hok]; rfl, fun hp => ?_, fun hp hsig => ?_⟩
  · rw [Finish_sign_eq E op sig out0 hp hfin, htag]
    simp
  · have htri := Finish_verify_eq E op sig out0 hp hfin (htag ▸ Nat.zero_le _)
    rw [htri, htag]
    have hnil : sig = [] := List.length_eq_zero.mp hsig
    rw [if_neg (not_not_intro hsig), if_neg (not_not_intro (by simp [hnil]))]

/-- Witness for C8 at concrete inputs: digest SHA-224, tag length 0, an
operation that has accumulated message [3] under key [2], empty supplied
tag, over the always-succeeding engine. -/
theorem C8_zero_tag_length_always_verifies_witness :
    (hmacOperationNew .KM_PURPOSE_VERIFY [2] .KM_DIGEST_SHA_2_224 0).error_ =
      .KM_ERROR_OK ∧
    (hmacOperationNew .KM_PURPOSE_VERIFY [2] .KM_DIGEST_SHA_2_224 0).Begin =
      .KM_ERROR_OK ∧
    (({ purpose := .KM_PURPOSE_VERIFY, error_ := .KM_ERROR_OK, tag_length_ := 0,
        ctx_ := { md := some .sha224, key := [2], data := [3] } } :
          HmacOperation).purpose = .KM_PURPOSE_SIGN →
      HmacOperation.Finish okEnv
        { purpose := .KM_PURPOSE_VERIFY, error_ := .KM_ERROR_OK, tag_length_ := 0,
          ctx_ := { md := some .sha224, key := [2], data := [3] } } [] [7] =
        (.KM_ERROR_OK, [7])) ∧
    (({ purpose := .KM_PURPOSE_VERIFY, error_ := .KM_ERROR_OK, tag_length_ := 0,
        ctx_ := { md := some .sha224, key := [2], data := [3] } } :
          HmacOperation).purpose = .KM_PURPOSE_VERIFY →
      ([] : List Nat).length = 0 →
      HmacOperation.Finish okEnv
        { purpose := .KM_PURPOSE_VERIFY, error_ := .KM_ERROR_OK, tag_length_ := 0,
          ctx_ := { md := some .sha224, key := [2], data := [3] } } [] [7] =
        (.KM_ERROR_OK, [7])) :=
  C8_zero_tag_length_always_verifies okEnv .KM_PURPOSE_VERIFY [2] [] [7]
    .KM_DIGEST_SHA_2_224 .sha224
    { purpose := .KM_PURPOSE_VERIFY, error_ := .KM_ERROR_OK, tag_length_ := 0,
      ctx_ := { md := some .sha224, key := [2], data := [3] } }
    rfl rfl rfl

/-- C9: only Begin reports the latched construction-time error. Begin
returns error_ verbatim, and neither Update nor Finish can ever produce
KM_ERROR_UNSUPPORTED_DIGEST or KM_ERROR_UNSUPPORTED_MAC_LENGTH - on an
instance whose construction latched one of those, both still run their
normal paths. -/
theorem C9_latched_error_only_via_begin (E : OpenSSLEnv) (op : HmacOperation)
    (input sig out0 : List Nat) (c0 : Nat) :
    op.Begin = op.error_ ∧
    (HmacOperation.Update E op input c0).1 ≠ .KM_ERROR_UNSUPPORTED_DIGEST ∧
    (HmacOperation.Update E op input c0).1 ≠ .KM_ERROR_UNSUPPORTED_MAC_LENGTH ∧
    (HmacOperation.Finish E op sig out0).1 ≠ .KM_ERROR_UNSUPPORTED_DIGEST ∧
    (HmacOperation.Finish E op sig out0).1 ≠ .KM_ERROR_UNSUPPORTED_MAC_LENGTH := by
  have hu : ∀ e : keymaster_error_t,
      (HmacOperation.Update E op input c0).1 = e →
      e = .KM_ERROR_UNKNOWN_ERROR ∨ e = .KM_ERROR_OK := by
    intro e he
    by_cases hc : E.updateOk op.ctx_ input <;>
      simp [HmacOperation.Update, HMAC_Update, hc] at he <;> simp [← he]
  have hf : ∀ e : keymaster_error_t,
      (HmacOperation.Finish E op sig out0).1 = e →
      e = .KM_ERROR_UNKNOWN_ERROR ∨ e = .KM_ERROR_OK ∨
      e = .KM_ERROR_INVALID_INPUT_LENGTH ∨ e = .KM_ERROR_VERIFICATION_FAILED ∨
      e = .KM_ERROR_UNSUPPORTED_PURPOSE := by
    intro e he
    by_cases hc : E.finalOk op.ctx_
    · cases hp : op.purpose <;>
        simp [HmacOperation.Finish, HMAC_Final, hc, hp] at he <;>
        [skip; skip; skip; split_ifs at he] <;> simp [← he]
    · simp [HmacOperation.Finish, HMAC_Final, hc] at he
      simp [← he]
  refine ⟨rfl, fun h => ?_, fun h => ?_, fun h => ?_, fun h => ?_⟩
  · rcases hu _ h with h' | h' <;> cases h'
  · rcases hu _ h with h' | h' <;> cases h'
  · rcases hf _ h with h' | h' | h' | h' | h' <;> cases h'
  · rcases hf _ h with h' | h' | h' | h' | h' <;> cases h'

/-- Witness for C9 at concrete inputs: an instance that latched
KM_ERROR_UNSUPPORTED_DIGEST still runs Update and Finish on their normal
paths, and Begin reports the latched code. -/
theorem C9_latched_error_only_via_begin_witness :
    ({ purpose := .KM_PURPOSE_SIGN, error_ := .KM_ERROR_UNSUPPORTED_DIGEST,
       tag_length_ := 16, ctx_ := HMAC_CTX_init } : HmacOperation).Begin =
      ({ purpose := .KM_PURPOSE_SIGN, error_ := .KM_ERROR_UNSUPPORTED_DIGEST,
         tag_length_ := 16, ctx_ := HMAC_CTX_init } : HmacOperation).error_ ∧
    (HmacOperation.Update okEnv
      { purpose := .KM_PURPOSE_SIGN, error_ := .KM_ERROR_UNSUPPORTED_DIGEST,
        tag_length_ := 16, ctx_ := HMAC_CTX_init } [4, 5] 0).1 ≠
      .KM_ERROR_UNSUPPORTED_DIGEST ∧
    (HmacOperation.Update okEnv
      { purpose := .KM_PURPOSE_SIGN, error_ := .KM_ERROR_UNSUPPORTED_DIGEST,
        tag_length_ := 16, ctx_ := HMAC_CTX_init } [4, 5] 0).1 ≠
      .KM_ERROR_UNSUPPORTED_MAC_LENGTH ∧
    (HmacOperation.Finish okEnv
      { purpose := .KM_PURPOSE_SIGN, error_ := .KM_ERROR_UNSUPPORTED_DIGEST,
        tag_length_ := 16, ctx_ := HMAC_CTX_init } [] []).1 ≠
      .KM_ERROR_UNSUPPORTED_DIGEST ∧
    (HmacOperation.Finish okEnv
      { purpose := .KM_PURPOSE_SIGN, error_ := .KM_ERROR_UNSUPPORTED_DIGEST,
        tag_length_ := 16, ctx_ := HMAC_CTX_init } [] []).1 ≠
      .KM_ERROR_UNSUPPORTED_MAC_LENGTH :=
  C9_latched_error_only_via_begin okEnv
    { purpose := .KM_PURPOSE_SIGN, error_ := .KM_ERROR_UNSUPPORTED_DIGEST,
      tag_length_ := 16, ctx_ := HMAC_CTX_init } [4, 5] [] [] 0

/-- C10: when the engine rejects an update, Update returns with the
bytes-consumed out-parameter (and the operation state) exactly as they
were before the call - it is written only on the success path. -/
theorem C10_update_failure_frames_consumed (E : OpenSSLEnv) (op : HmacOperation)
    (input : List Nat) (c0 : Nat) (h : E.updateOk op.ctx_ input = false) :
    HmacOperation.Update E op input c0 = (.KM_ERROR_UNKNOWN_ERROR, op, c0) := by
  simp [HmacOperation.Update, HMAC_Update, h]

/-- Witness for C10 at concrete inputs: over the always-failing engine,
an update of [6, 7] leaves the prior bytes-consumed value 42 in place. -/
theorem C10_update_failure_frames_consumed_witness :
    HmacOperation.Update failEnv
      { purpose := .KM_PURPOSE_SIGN, error_ := .KM_ERROR_OK, tag_length_ := 4,
        ctx_ := { md := some .sha256, key := [1], data := [5] } } [6, 7] 42 =
      (.KM_ERROR_UNKNOWN_ERROR,
       { purpose := .KM_PURPOSE_SIGN, error_ := .KM_ERROR_OK, tag_length_ := 4,
         ctx_ := { md := some .sha256, key := [1], data := [5] } }, 42) :=
  C10_update_failure_frames_consumed failEnv
    { purpose := .KM_PURPOSE_SIGN, error_ := .KM_ERROR_OK, tag_length_ := 4,
      ctx_ := { md := some .sha256, key := [1], data := [5] } } [6, 7] 42 rfl

end Keymaster
